import Mathlib

/-!
Verification development for the `conifer` bundler service (`src/main.go`).

The program registers an esbuild plugin (`httpPlugin`) with two `OnResolve`
callbacks and one `OnLoad` callback, and an HTTP front end that selects the
entry source text and renders the build outcome.  The resolution callbacks
lean on Go's `net/url` package (`url.Parse`, `URL.ResolveReference`,
`URL.String`), so the embedding below first ports that package's relevant
functions, then the plugin callbacks and their dispatch, then the loader and
the front-end source selection.

Strings are modelled as `List Char`; each `Char` stands for one byte of the
Go string (all inputs of interest are ASCII, where Go bytes and code points
coincide).
-/

namespace Conifer

/-- Go strings, modelled as lists of (byte-sized) characters. -/
abbrev GoStr := List Char

/-- Error values (Go `error`), modelled by their message/payload text. -/
abbrev GoErr := GoStr

/-- Shorthand turning a Lean string literal into a `GoStr`. -/
def gs (s : String) : GoStr := s.data

/-! ### Go `strings` helpers used by `net/url` -/

/-- `strings.Cut(s, sep)` for a one-character separator: the part before the
first occurrence of `c`, the part after it, and whether `c` occurred. -/
def cutCh (c : Char) : GoStr → GoStr × GoStr × Bool
  | [] => ([], [], false)
  | x :: xs =>
    if x == c then ([], xs, true)
    else
      let r := cutCh c xs
      (x :: r.1, r.2.1, r.2.2)

/-- `strings.LastIndex(s, sep)` for a one-character separator, as an
optional index (`none` stands for Go's `-1`). -/
def lastIndexCh (c : Char) (s : GoStr) : Option Nat :=
  let rec go : GoStr → Nat → Option Nat
    | [], _ => none
    | x :: xs, i =>
      match go xs (i + 1) with
      | some j => some j
      | none => if x == c then some i else none
  go s 0

/-- `strings.Index(s, sub)`: index of the first occurrence of `sub`. -/
def indexSeq (sub : GoStr) : GoStr → Option Nat
  | [] => if sub.isEmpty then some 0 else none
  | x :: xs =>
    if sub.isPrefixOf (x :: xs) then some 0
    else (indexSeq sub xs).map (· + 1)

/-- `strings.ToLower` restricted to ASCII (scheme characters). -/
def goToLower (s : GoStr) : GoStr :=
  s.map fun c =>
    if 'A' ≤ c && c ≤ 'Z' then Char.ofNat (c.toNat + 32) else c

/-- The single-quote character, U+0027. -/
def quoteCh : Char := Char.ofNat 39

/-! ### `net/url` escaping machinery -/

/-- The encoding modes of `net/url` (`encodePath`, `encodeHost`, ...). -/
inductive Encoding
  | encodePath
  | encodePathSegment
  | encodeHost
  | encodeZone
  | encodeUserPassword
  | encodeQueryComponent
  | encodeFragment
deriving DecidableEq, Repr

open Encoding

/-- `net/url.ishex`. -/
def ishex (c : Char) : Bool :=
  ('0' ≤ c && c ≤ '9') || ('a' ≤ c && c ≤ 'f') || ('A' ≤ c && c ≤ 'F')

/-- `net/url.unhex`. -/
def unhex (c : Char) : Nat :=
  if '0' ≤ c && c ≤ '9' then c.toNat - '0'.toNat
  else if 'a' ≤ c && c ≤ 'f' then c.toNat - 'a'.toNat + 10
  else if 'A' ≤ c && c ≤ 'F' then c.toNat - 'A'.toNat + 10
  else 0

/-- `net/url.upperhex` digit table lookup. -/
def upperhex (n : Nat) : Char := (gs "0123456789ABCDEF").getD n '0'

/-- `net/url.shouldEscape(c, mode)`: whether byte `c` must be
percent-encoded when it appears in the given URL component. -/
def shouldEscape (c : Char) (mode : Encoding) : Bool :=
  -- §2.3 Unreserved characters (alphanumerics)
  if ('a' ≤ c && c ≤ 'z') || ('A' ≤ c && c ≤ 'Z') || ('0' ≤ c && c ≤ '9') then
    false
  else if (mode == encodeHost || mode == encodeZone) &&
      [ '!', '$', '&', quoteCh, '(', ')', '*', '+', ',', ';', '=', ':',
        '[', ']', '<', '>', '"'].contains c then
    -- §3.2.2 Host allows sub-delims, plus ':', '[', ']', '<', '>', '"'
    false
  else if ['-', '_', '.', '~'].contains c then
    -- §2.3 Unreserved characters (mark)
    false
  else if ['$', '&', '+', ',', '/', ':', ';', '=', '?', '@'].contains c then
    -- §2.2 Reserved characters: per-component exceptions
    match mode with
    | encodePath => c == '?'
    | encodePathSegment => c == '/' || c == ';' || c == ',' || c == '?'
    | encodeUserPassword => c == '@' || c == '/' || c == '?' || c == ':'
    | encodeQueryComponent => true
    | encodeFragment => false
    | encodeHost => true
    | encodeZone => true
  else if mode == encodeFragment && ['!', '(', ')', '*'].contains c then
    false
  else
    true

/-- Validation pass of `net/url.unescape`: checks every `%` escape is
well-formed (with the host/zone extra rules) and counts escapes and `+`
signs; returns the escape count and whether a `+` was seen in query mode. -/
def unescapeCheck (mode : Encoding) : GoStr → Except GoErr (Nat × Bool)
  | [] => Except.ok (0, false)
  | '%' :: rest =>
    match rest with
    | c1 :: c2 :: rest2 =>
      if !ishex c1 || !ishex c2 then
        Except.error ('%' :: [c1, c2])
      else if mode == encodeHost && unhex c1 < 8 && !(c1 == '2' && c2 == '5') then
        -- in the host, %-encoding is only for non-ASCII bytes (except %25)
        Except.error ('%' :: [c1, c2])
      else if mode == encodeZone &&
          !(c1 == '2' && c2 == '5') && unhex c1 * 16 + unhex c2 != 32 &&
          shouldEscape (Char.ofNat (unhex c1 * 16 + unhex c2)) encodeHost then
        Except.error ('%' :: [c1, c2])
      else
        match unescapeCheck mode rest2 with
        | Except.error e => Except.error e
        | Except.ok (n, hp) => Except.ok (n + 1, hp)
    | _ => Except.error ('%' :: rest)
  | '+' :: rest =>
    match unescapeCheck mode rest with
    | Except.error e => Except.error e
    | Except.ok (n, hp) => Except.ok (n, hp || mode == encodeQueryComponent)
  | c :: rest =>
    if (mode == encodeHost || mode == encodeZone) && c.toNat < 0x80 &&
        shouldEscape c mode then
      Except.error [c]
    else
      unescapeCheck mode rest

/-- Rewriting pass of `net/url.unescape`, run only on validated input:
decodes `%XY` triples and, in query mode, turns `+` into a space. -/
def unescapeRun (mode : Encoding) : GoStr → GoStr
  | [] => []
  | '%' :: c1 :: c2 :: rest =>
    Char.ofNat (unhex c1 * 16 + unhex c2) :: unescapeRun mode rest
  | '+' :: rest =>
    (if mode == encodeQueryComponent then ' ' else '+') :: unescapeRun mode rest
  | c :: rest => c :: unescapeRun mode rest

/-- `net/url.unescape(s, mode)`. -/
def unescape (s : GoStr) (mode : Encoding) : Except GoErr GoStr :=
  match unescapeCheck mode s with
  | Except.error e => Except.error e
  | Except.ok (n, hasPlus) =>
    if n == 0 && !hasPlus then Except.ok s else Except.ok (unescapeRun mode s)

/-- `net/url.escape(s, mode)`: percent-encode every byte that
`shouldEscape` flags; in query mode a space becomes `+`. -/
def escape (s : GoStr) (mode : Encoding) : GoStr :=
  if s.all (fun c => !shouldEscape c mode) then s
  else
    s.flatMap fun c =>
      if shouldEscape c mode then
        if c == ' ' && mode == encodeQueryComponent then ['+']
        else ['%', upperhex (c.toNat / 16), upperhex (c.toNat % 16)]
      else [c]

/-- `net/url.validEncoded(s, mode)`: whether `s` is a reasonable
already-encoded rendering of a URL component. -/
def validEncoded (s : GoStr) (mode : Encoding) : Bool :=
  s.all fun c =>
    if [ '!', '$', '&', quoteCh, '(', ')', '*', '+', ',', ';', '=', ':',
         '@'].contains c then true
    else if c == '[' || c == ']' then true
    else if c == '%' then true
    else !shouldEscape c mode

/-- `net/url.validOptionalPort(port)`. -/
def validOptionalPort : GoStr → Bool
  | [] => true
  | c :: rest => c == ':' && rest.all fun b => '0' ≤ b && b ≤ '9'

/-- `net/url.validUserinfo(s)`. -/
def validUserinfo (s : GoStr) : Bool :=
  s.all fun r =>
    ('A' ≤ r && r ≤ 'Z') || ('a' ≤ r && r ≤ 'z') || ('0' ≤ r && r ≤ '9') ||
    [ '-', '.', '_', ':', '~', '!', '$', '&', quoteCh, '(', ')', '*', '+',
      ',', ';', '=', '%', '@'].contains r

/-- `net/url.stringContainsCTLByte(s)`. -/
def stringContainsCTLByte (s : GoStr) : Bool :=
  s.any fun b => b.toNat < 0x20 || b.toNat == 0x7f

/-! ### The `net/url.URL` structure and parsing -/

/-- `net/url.Userinfo`. -/
structure Userinfo where
  username : GoStr := []
  password : GoStr := []
  passwordSet : Bool := false
deriving DecidableEq, Repr

/-- `net/url.User(username)`. -/
def User (username : GoStr) : Userinfo := { username := username }

/-- `net/url.UserPassword(username, password)`. -/
def UserPassword (username password : GoStr) : Userinfo :=
  { username := username, password := password, passwordSet := true }

/-- `(*Userinfo).String()`. -/
def Userinfo.String (u : Userinfo) : GoStr :=
  escape u.username encodeUserPassword ++
    (if u.passwordSet then ':' :: escape u.password encodeUserPassword else [])

/-- `net/url.URL`, with the same fields as the Go struct. -/
structure URL where
  Scheme : GoStr := []
  Opaque : GoStr := []
  User : Option Userinfo := none
  Host : GoStr := []
  Path : GoStr := []
  RawPath : GoStr := []
  OmitHost : Bool := false
  ForceQuery : Bool := false
  RawQuery : GoStr := []
  Fragment : GoStr := []
  RawFragment : GoStr := []
deriving DecidableEq, Repr

/-- `net/url.getScheme(rawURL)`: split a leading `scheme:` off `rawURL`.
`go` scans with the already-seen characters accumulated in reverse. -/
def getScheme (rawURL : GoStr) : Except GoErr (GoStr × GoStr) :=
  let rec go (acc : GoStr) : GoStr → Except GoErr (GoStr × GoStr)
    | [] => Except.ok ([], rawURL)
    | c :: rest =>
      if ('a' ≤ c && c ≤ 'z') || ('A' ≤ c && c ≤ 'Z') then
        go (c :: acc) rest
      else if ('0' ≤ c && c ≤ '9') || c == '+' || c == '-' || c == '.' then
        if acc.isEmpty then Except.ok ([], rawURL) else go (c :: acc) rest
      else if c == ':' then
        if acc.isEmpty then Except.error (gs "missing protocol scheme")
        else Except.ok (acc.reverse, rest)
      else
        -- invalid character: there is no valid scheme
        Except.ok ([], rawURL)
  go [] rawURL

/-- `net/url.parseHost(host)`. -/
def parseHost (host : GoStr) : Except GoErr GoStr :=
  if ("[".data).isPrefixOf host then
    -- IP-Literal per RFC 3986 / RFC 6874
    match lastIndexCh ']' host with
    | none => Except.error (gs "missing ']' in host")
    | some i =>
      let colonPort := host.drop (i + 1)
      if !validOptionalPort colonPort then
        Except.error (gs "invalid port after host" ++ colonPort)
      else
        match indexSeq (gs "%25") (host.take i) with
        | some zone =>
          match unescape (host.take zone) encodeHost with
          | Except.error e => Except.error e
          | Except.ok host1 =>
            match unescape ((host.take i).drop zone) encodeZone with
            | Except.error e => Except.error e
            | Except.ok host2 =>
              match unescape (host.drop i) encodeHost with
              | Except.error e => Except.error e
              | Except.ok host3 => Except.ok (host1 ++ host2 ++ host3)
        | none => unescape host encodeHost
  else
    match lastIndexCh ':' host with
    | some i =>
      let colonPort := host.drop i
      if !validOptionalPort colonPort then
        Except.error (gs "invalid port after host" ++ colonPort)
      else unescape host encodeHost
    | none => unescape host encodeHost

/-- `net/url.parseAuthority(authority)`, returning `(User, Host)`. -/
def parseAuthority (authority : GoStr) : Except GoErr (Option Userinfo × GoStr) :=
  let hostPart :=
    match lastIndexCh '@' authority with
    | none => authority
    | some i => authority.drop (i + 1)
  match parseHost hostPart with
  | Except.error e => Except.error e
  | Except.ok host =>
    match lastIndexCh '@' authority with
    | none => Except.ok (none, host)
    | some i =>
      let userinfo := authority.take i
      if !validUserinfo userinfo then
        Except.error (gs "net/url: invalid userinfo")
      else if !userinfo.contains ':' then
        match unescape userinfo encodeUserPassword with
        | Except.error e => Except.error e
        | Except.ok u => Except.ok (some (User u), host)
      else
        let (username, password, _) := cutCh ':' userinfo
        match unescape username encodeUserPassword with
        | Except.error e => Except.error e
        | Except.ok un =>
          match unescape password encodeUserPassword with
          | Except.error e => Except.error e
          | Except.ok pw => Except.ok (some (UserPassword un pw), host)

/-- `(*URL).setPath(p)`: unescape `p` into `Path`, recording `RawPath`
only when the default escaping of `Path` differs from `p`. -/
def URL.setPath (u : URL) (p : GoStr) : Except GoErr URL :=
  match unescape p encodePath with
  | Except.error e => Except.error e
  | Except.ok path =>
    if escape path encodePath == p then
      Except.ok { u with Path := path, RawPath := [] }
    else
      Except.ok { u with Path := path, RawPath := p }

/-- `(*URL).EscapedPath()`. -/
def URL.EscapedPath (u : URL) : GoStr :=
  if !u.RawPath.isEmpty && validEncoded u.RawPath encodePath &&
      (match unescape u.RawPath encodePath with
       | Except.ok p => p == u.Path
       | Except.error _ => false) then
    u.RawPath
  else if u.Path == gs "*" then gs "*"
  else escape u.Path encodePath

/-- `(*URL).setFragment(f)`. -/
def URL.setFragment (u : URL) (f : GoStr) : Except GoErr URL :=
  match unescape f encodeFragment with
  | Except.error e => Except.error e
  | Except.ok frag =>
    if escape frag encodeFragment == f then
      Except.ok { u with Fragment := frag, RawFragment := [] }
    else
      Except.ok { u with Fragment := frag, RawFragment := f }

/-- `(*URL).EscapedFragment()`. -/
def URL.EscapedFragment (u : URL) : GoStr :=
  if !u.RawFragment.isEmpty && validEncoded u.RawFragment encodeFragment &&
      (match unescape u.RawFragment encodeFragment with
       | Except.ok f => f == u.Fragment
       | Except.error _ => false) then
    u.RawFragment
  else escape u.Fragment encodeFragment

/-- `net/url.parse(rawURL, viaRequest)`: parse a URL without a fragment. -/
def parse (rawURL : GoStr) (viaRequest : Bool) : Except GoErr URL :=
  if stringContainsCTLByte rawURL then
    Except.error (gs "net/url: invalid control character in URL")
  else if rawURL.isEmpty && viaRequest then
    Except.error (gs "empty url")
  else if rawURL == gs "*" then
    Except.ok { Path := gs "*" }
  else
    match getScheme rawURL with
    | Except.error e => Except.error e
    | Except.ok (scheme0, rest0) =>
      let scheme := goToLower scheme0
      -- split the query off `rest`
      let (forceQuery, rest1, rawQuery) :=
        if rest0.getLast? == some '?' && !(rest0.dropLast.contains '?') then
          (true, rest0.dropLast, ([] : GoStr))
        else
          let (r, q, _) := cutCh '?' rest0
          (false, r, q)
      if !(gs "/").isPrefixOf rest1 && !scheme.isEmpty then
        -- rootless paths with a scheme are opaque per RFC 3986
        Except.ok { Scheme := scheme, Opaque := rest1,
                    ForceQuery := forceQuery, RawQuery := rawQuery }
      else if !(gs "/").isPrefixOf rest1 && viaRequest then
        Except.error (gs "invalid URI for request")
      else if !(gs "/").isPrefixOf rest1 && (cutCh '/' rest1).1.contains ':' then
        -- first path segment cannot contain a colon in a relative URL
        Except.error (gs "first path segment in URL cannot contain colon")
      else
        let hasAuthority :=
          (!scheme.isEmpty || (!viaRequest && !(gs "///").isPrefixOf rest1)) &&
            (gs "//").isPrefixOf rest1
        if hasAuthority then
          let afterSlashes := rest1.drop 2
          let (authority, rest2) :=
            match indexSeq (gs "/") afterSlashes with
            | some i => (afterSlashes.take i, afterSlashes.drop i)
            | none => (afterSlashes, ([] : GoStr))
          match parseAuthority authority with
          | Except.error e => Except.error e
          | Except.ok (user, host) =>
            URL.setPath
              { Scheme := scheme, User := user, Host := host,
                ForceQuery := forceQuery, RawQuery := rawQuery } rest2
        else
          let omitHost := !scheme.isEmpty && (gs "/").isPrefixOf rest1
          URL.setPath
            { Scheme := scheme, OmitHost := omitHost,
              ForceQuery := forceQuery, RawQuery := rawQuery } rest1

/-- `net/url.Parse(rawURL)`: cut off any fragment, parse the rest, then
store the fragment. -/
def Parse (rawURL : GoStr) : Except GoErr URL :=
  let (u, frag, _) := cutCh '#' rawURL
  match parse u false with
  | Except.error e => Except.error e
  | Except.ok url =>
    if frag.isEmpty then Except.ok url
    else url.setFragment frag

/-! ### `net/url` reference resolution -/

/-- The successive values taken by `elem` in the `strings.Cut` loop of
`net/url.resolvePath`: the `/`-separated segments of the input (always at
least one, possibly empty). -/
def segments : GoStr → List GoStr
  | [] => [[]]
  | c :: rest =>
    if c == '/' then [] :: segments rest
    else
      match segments rest with
      | s :: ss => (c :: s) :: ss
      | [] => [[c]]

/-- One iteration of the segment loop in `net/url.resolvePath`: absorb the
segment `elem` into the output `dst` (which always starts with `/`),
handling `.` and `..`; returns the new output and "first segment" flag. -/
def resolveSeg (dst : GoStr) (first : Bool) (elem : GoStr) : GoStr × Bool :=
  if elem == gs "." then
    (dst, false)
  else if elem == gs ".." then
    -- ignore the leading '/' in the output
    let str := dst.drop 1
    match lastIndexCh '/' str with
    | none => (gs "/", true)
    | some index => ('/' :: str.take index, first)
  else
    ((if !first then dst ++ '/' :: elem else dst ++ elem), false)

/-- The segment loop of `net/url.resolvePath` over the cut segments;
returns the final output and the final value of `elem`. -/
def resolveLoop (dst : GoStr) (first : Bool) : List GoStr → GoStr × GoStr
  | [] => (dst, [])
  | [elem] => ((resolveSeg dst first elem).1, elem)
  | elem :: seg :: rest =>
    let next := resolveSeg dst first elem
    resolveLoop next.1 next.2 (seg :: rest)

/-- `net/url.resolvePath(base, ref)`: merge the paths per RFC 3986 §5.2 and
remove `.` / `..` segments. -/
def resolvePath (base ref : GoStr) : GoStr :=
  let full :=
    if ref.isEmpty then base
    else if ref.head? != some '/' then
      (match lastIndexCh '/' base with
       | none => ([] : GoStr)
       | some i => base.take (i + 1)) ++ ref
    else ref
  if full.isEmpty then []
  else
    let (dst, elem) := resolveLoop (gs "/") true (segments full)
    let dst := if elem == gs "." || elem == gs ".." then dst ++ gs "/" else dst
    -- an initial '/' was written eagerly; avoid doubling it
    if dst.length > 1 && dst.get? 1 == some '/' then dst.drop 1 else dst

/-- `(*URL).ResolveReference(ref)` per RFC 3986 §5.3.  Like Go, the result
of `setPath` is discarded on error, leaving the path fields unchanged. -/
def URL.ResolveReference (u ref : URL) : URL :=
  let url0 := if ref.Scheme.isEmpty then { ref with Scheme := u.Scheme } else ref
  if !ref.Scheme.isEmpty || !ref.Host.isEmpty || ref.User.isSome then
    match url0.setPath (resolvePath ref.EscapedPath []) with
    | Except.ok v => v
    | Except.error _ => url0
  else if !ref.Opaque.isEmpty then
    { url0 with User := none, Host := [], Path := [] }
  else
    let url1 :=
      if ref.Path.isEmpty && !ref.ForceQuery && ref.RawQuery.isEmpty then
        let urlq := { url0 with RawQuery := u.RawQuery }
        if ref.Fragment.isEmpty then
          { urlq with Fragment := u.Fragment, RawFragment := u.RawFragment }
        else urlq
      else url0
    if ref.Path.isEmpty && !u.Opaque.isEmpty then
      { url1 with Opaque := u.Opaque }
    else
      -- the "abs_path" or "rel_path" cases
      let url2 := { url1 with Host := u.Host, User := u.User }
      match url2.setPath (resolvePath u.EscapedPath ref.EscapedPath) with
      | Except.ok v => v
      | Except.error _ => url2

/-- `(*URL).String()`: reassemble the URL per RFC 3986 §5.3. -/
def URL.String (u : URL) : GoStr :=
  let buf : GoStr := if !u.Scheme.isEmpty then u.Scheme ++ gs ":" else []
  let buf :=
    if !u.Opaque.isEmpty then buf ++ u.Opaque
    else
      let buf :=
        if !u.Scheme.isEmpty || !u.Host.isEmpty || u.User.isSome then
          if u.OmitHost && u.Host.isEmpty && u.User.isNone then buf
          else
            let buf :=
              if !u.Host.isEmpty || !u.Path.isEmpty || u.User.isSome then
                buf ++ gs "//"
              else buf
            let buf :=
              match u.User with
              | some ui => buf ++ ui.String ++ gs "@"
              | none => buf
            if !u.Host.isEmpty then buf ++ escape u.Host encodeHost else buf
        else buf
      let path := u.EscapedPath
      let buf :=
        if !path.isEmpty && path.head? != some '/' && !u.Host.isEmpty then
          buf ++ gs "/"
        else buf
      let buf :=
        -- a first relative segment with a colon needs a "./" to not look
        -- like a scheme
        if buf.isEmpty && (cutCh '/' path).1.contains ':' then buf ++ gs "./"
        else buf
      buf ++ path
  let buf :=
    if u.ForceQuery || !u.RawQuery.isEmpty then buf ++ '?' :: u.RawQuery
    else buf
  if !u.Fragment.isEmpty then buf ++ '#' :: u.EscapedFragment else buf

/-! ### The esbuild plugin (`httpPlugin` in `src/main.go`)

esbuild presents each import to the registered `OnResolve` callbacks in
registration order; a callback runs when its `Filter` regex matches the
path of the import and its `Namespace` option (when set) equals that of
the importing module.  The first callback that runs decides the result.
The two regexes used by the plugin, `^https?://` and `.*`, are rendered as
the predicates below. -/

/-- Arguments handed to an `OnResolve` callback: the path being
resolved, the fully-qualified specifier of the importing module, and that
module's namespace. -/
structure OnResolveArgs where
  Path : GoStr
  Importer : GoStr
  Namespace : GoStr
deriving DecidableEq, Repr

/-- Result of an `OnResolve` callback: the resolved path and the namespace
tag attached to it. -/
structure OnResolveResult where
  Path : GoStr := []
  Namespace : GoStr := []
deriving DecidableEq, Repr

/-- Match conditions of an `OnResolve` registration: a path filter and an
optional importer-namespace restriction (empty = unrestricted). -/
structure OnResolveOptions where
  Filter : GoStr → Bool
  Namespace : GoStr := []

/-- The regex `^https?://` as a predicate: the path starts with `http://`
or `https://`, case-sensitively. -/
def matchesHttpFilter (path : GoStr) : Bool :=
  (gs "http://").isPrefixOf path || (gs "https://").isPrefixOf path

/-- The regex `.*`, which matches every path. -/
def matchesAnyFilter (_path : GoStr) : Bool := true

/-- First `OnResolve` callback (`src/main.go` lines 20-26): tag absolute
`http(s)://` specifiers with the `http-url` namespace, path unchanged. -/
def onResolveHttp (args : OnResolveArgs) : Except GoErr OnResolveResult :=
  Except.ok { Path := args.Path, Namespace := gs "http-url" }

/-- Second `OnResolve` callback (`src/main.go` lines 33-47): resolve any
path found inside an `http-url` module against the importer's URL, keeping
the `http-url` namespace. -/
def onResolveHttpUrl (args : OnResolveArgs) : Except GoErr OnResolveResult :=
  match Parse args.Importer with
  | Except.error e => Except.error e
  | Except.ok base =>
    match Parse args.Path with
    | Except.error e => Except.error e
    | Except.ok relative =>
      Except.ok { Path := (base.ResolveReference relative).String,
                  Namespace := gs "http-url" }

/-- The plugin's `OnResolve` registrations, in registration order
(`src/main.go` lines 20 and 33). -/
def httpPluginOnResolve :
    List (OnResolveOptions × (OnResolveArgs → Except GoErr OnResolveResult)) :=
  [ ({ Filter := matchesHttpFilter }, onResolveHttp),
    ({ Filter := matchesAnyFilter, Namespace := gs "http-url" },
      onResolveHttpUrl) ]

/-- esbuild's `OnResolve` dispatch: run the first registered callback whose
filter matches the path and whose namespace option (when set) equals
that of the importer; `none` means no callback claimed the path and the
host engine falls back to its own filesystem resolution. -/
def runOnResolve :
    List (OnResolveOptions × (OnResolveArgs → Except GoErr OnResolveResult)) →
    OnResolveArgs → Option (Except GoErr OnResolveResult)
  | [], _ => none
  | (opts, callback) :: rest, args =>
    if opts.Filter args.Path &&
        (opts.Namespace.isEmpty || opts.Namespace == args.Namespace) then
      some (callback args)
    else
      runOnResolve rest args

/-- Resolution through `httpPlugin`: the plugin's registrations under
esbuild's dispatch. -/
def httpPluginResolve (args : OnResolveArgs) :
    Option (Except GoErr OnResolveResult) :=
  runOnResolve httpPluginOnResolve args

/-! ### The loader (`OnLoad`, `src/main.go` lines 53-66) -/

/-- An HTTP response as the `OnLoad` callback sees it: the status code,
the bytes the body yields before EOF or a read error, and the read error,
if any, that ends the body stream instead of EOF. -/
structure HttpResponse where
  StatusCode : Nat
  bodyData : GoStr
  bodyReadErr : Option GoErr := none
deriving DecidableEq, Repr

/-- Ghost state recording what happened to the response body stream by the
time the callback returned: whether it was consumed to EOF and whether it
was closed (its connection resource released). -/
structure BodyState where
  drained : Bool
  closed : Bool
deriving DecidableEq, Repr

/-- The `OnLoad` callback for the `http-url` namespace: `http.Get` the
path, read the whole body, return it as the module contents.  The network
is modelled by `get`, the outcome of `http.Get` for the requested URL.
`io.ReadAll` consumes the stream until EOF or until its first read error;
the deferred `res.Body.Close()` releases the stream on every exit path
without consuming remaining input.  Returns the callback result paired
with the body's ghost state (`none` when no response was obtained). -/
def onLoadHttpUrl (get : Except GoErr HttpResponse) :
    Except GoErr GoStr × Option BodyState :=
  match get with
  | Except.error err => (Except.error err, none)
  | Except.ok res =>
    -- defer res.Body.Close()
    match res.bodyReadErr with
    | some err => (Except.error err, some { drained := false, closed := true })
    | none => (Except.ok res.bodyData, some { drained := true, closed := true })

/-! ### The HTTP front end (`main`, `src/main.go` lines 78-135) -/

/-- The source text served for `/health` (`src/main.go` lines 81-90). -/
def healthSource : GoStr := gs
  "\n\t\t\t// export * from \x27./another-file\x27\n\t\t\t// import * as constants from \x27https://raw.githubusercontent.com/RoyalIcing/modules/main/constants.js\x27\n\t\t\t// export \x7b constants \x7d;\n\t\t\texport const hello = \x27world\x27;\n\t\t\texport * from \x27https://raw.githubusercontent.com/RoyalIcing/modules/0003a973c63dfc78bbc595d5d3b7891b89a1b829/constants.js\x27\n\t\t\texport * from \x27https://raw.githubusercontent.com/RoyalIcing/modules/0003a973c63dfc78bbc595d5d3b7891b89a1b829/interpolation.js\x27\n\t\t\texport * from \x27https://raw.githubusercontent.com/RoyalIcing/modules/0003a973c63dfc78bbc595d5d3b7891b89a1b829/generators.js\x27\n\t\t\t// export const pi = Math.PI;\n\t\t\t"

/-- The source text served for `/react@17.0.2` (`src/main.go` lines 97-100). -/
def reactSource : GoStr := gs
  "\n\t\t\texport * from \"https://cdn.jsdelivr.net/npm/react@17.0.2/umd/react.production.min.js\";\n\t\t\t//export * from \"https://cdn.jsdelivr.net/npm/react-dom@17.0.2/umd/react-dom.production.min.js\";\n\t\t\t"

/-- An inbound request as the handler consumes it: method, URL path, the
`source` query parameter, and the outcome of `io.ReadAll(r.Body)`. -/
structure Request where
  Method : GoStr
  UrlPath : GoStr
  querySource : GoStr
  bodyRead : Except GoErr GoStr
deriving Repr

/-- The entry-source selection of the handler (`src/main.go` lines 79-103):
`source` starts out empty and is only assigned when a branch succeeds, so a
failed POST body read leaves it empty. -/
def handleSource (r : Request) : GoStr :=
  if r.UrlPath == gs "/health" then healthSource
  else if r.Method == gs "POST" then
    match r.bodyRead with
    | Except.ok b => b
    | Except.error _ => []
  else if r.UrlPath == gs "/react@17.0.2" then reactSource
  else r.querySource

/-- The build outcome as the handler consumes it (`api.BuildResult`):
error messages and output file contents. -/
structure BuildResult where
  Errors : List GoStr
  OutputFiles : List GoStr
deriving DecidableEq, Repr

/-- The response the handler writes: status code and body. -/
structure Response where
  status : Nat
  body : GoStr
deriving DecidableEq, Repr

/-- Response rendering (`src/main.go` lines 124-134): the first build
error with status 500, else status 200 with the first output file (or an
empty body when there is none). -/
def renderBuild (result : BuildResult) : Response :=
  match result.Errors with
  | e :: _ => { status := 500, body := e }
  | [] =>
    { status := 200,
      body := match result.OutputFiles with
              | f :: _ => f
              | [] => [] }

/-- The whole handler: select the entry source, run the build (modelled by
the function `build`, since the bundling engine is outside the core), and
render the outcome. -/
def handle (build : GoStr → BuildResult) (r : Request) : Response :=
  renderBuild (build (handleSource r))

/-! ### Dispatch lemmas shared by the claim proofs -/

/-- A path matching `^https?://` is claimed by the first registered
`OnResolve` callback, whatever the importer context. -/
theorem httpPluginResolve_matches (args : OnResolveArgs)
    (h : matchesHttpFilter args.Path = true) :
    httpPluginResolve args = some (onResolveHttp args) := by
  simp [httpPluginResolve, runOnResolve, httpPluginOnResolve, h]

/-- A path not matching `^https?://`, imported from an `http-url` module,
is claimed by the second registered `OnResolve` callback. -/
theorem httpPluginResolve_relative (args : OnResolveArgs)
    (h : matchesHttpFilter args.Path = false)
    (hn : args.Namespace = gs "http-url") :
    httpPluginResolve args = some (onResolveHttpUrl args) := by
  simp [httpPluginResolve, runOnResolve, httpPluginOnResolve, h,
    matchesAnyFilter, hn]

/-- A path matching neither registration is left to the host engine. -/
theorem httpPluginResolve_declines (args : OnResolveArgs)
    (h1 : matchesHttpFilter args.Path = false)
    (h2 : args.Namespace ≠ gs "http-url") :
    httpPluginResolve args = none := by
  have hb : (gs "http-url" == args.Namespace) = false := by
    rw [beq_eq_false_iff_ne]
    exact fun hh => h2 hh.symm
  simp [httpPluginResolve, runOnResolve, httpPluginOnResolve, h1,
    matchesAnyFilter, hb]
  all_goals decide

/-- Any success of the second callback carries the `http-url` namespace. -/
theorem onResolveHttpUrl_namespace (args : OnResolveArgs)
    (r : OnResolveResult) (h : onResolveHttpUrl args = Except.ok r) :
    r.Namespace = gs "http-url" := by
  unfold onResolveHttpUrl at h
  cases hi : Parse args.Importer with
  | error e => rw [hi] at h; cases h
  | ok base =>
    rw [hi] at h
    cases hp : Parse args.Path with
    | error e => rw [hp] at h; cases h
    | ok rel =>
      rw [hp] at h
      cases h
      rfl

/-! ### The claims -/

/-- C1: relative resolution inside a network-tagged module follows
RFC 3986 §5.  Against the base `https://example.com/a/b/constants.js`, the
reference `./util.js` resolves to `https://example.com/a/b/util.js`,
`../c/util.js` resolves to `https://example.com/a/c/util.js`, and the
absolute reference `https://other.com/x.js` resolves to itself, overriding
the base entirely. -/
theorem relative_resolution_follows_rfc3986 :
    httpPluginResolve
        { Path := gs "./util.js",
          Importer := gs "https://example.com/a/b/constants.js",
          Namespace := gs "http-url" } =
      some (Except.ok
        { Path := gs "https://example.com/a/b/util.js",
          Namespace := gs "http-url" }) ∧
    httpPluginResolve
        { Path := gs "../c/util.js",
          Importer := gs "https://example.com/a/b/constants.js",
          Namespace := gs "http-url" } =
      some (Except.ok
        { Path := gs "https://example.com/a/c/util.js",
          Namespace := gs "http-url" }) ∧
    httpPluginResolve
        { Path := gs "https://other.com/x.js",
          Importer := gs "https://example.com/a/b/constants.js",
          Namespace := gs "http-url" } =
      some (Except.ok
        { Path := gs "https://other.com/x.js",
          Namespace := gs "http-url" }) :=
  ⟨rfl, rfl, rfl⟩

/-- C2: every specifier that matches `^https?://` (case-sensitively) is
resolved, whatever the importer context, to a result tagged with the
`http-url` (network) namespace whose path is the specifier unchanged, and
no error is produced. -/
theorem absolute_specifier_tagged_network_unchanged (args : OnResolveArgs)
    (h : matchesHttpFilter args.Path = true) :
    httpPluginResolve args =
      some (Except.ok { Path := args.Path, Namespace := gs "http-url" }) :=
  httpPluginResolve_matches args h

/-- Witness for C2 at the specifier `https://example.com/x.js` imported
from a filesystem module. -/
theorem absolute_specifier_tagged_network_unchanged_witness :
    matchesHttpFilter (gs "https://example.com/x.js") = true ∧
    httpPluginResolve
        { Path := gs "https://example.com/x.js",
          Importer := gs "src/app.js",
          Namespace := gs "file" } =
      some (Except.ok
        { Path := gs "https://example.com/x.js",
          Namespace := gs "http-url" }) :=
  ⟨by decide,
    absolute_specifier_tagged_network_unchanged
      { Path := gs "https://example.com/x.js",
        Importer := gs "src/app.js",
        Namespace := gs "file" } (by decide)⟩

/-- C3: every resolution result produced by either resolver callback
carries the `http-url` (network) namespace, and every specifier
encountered inside an `http-url` module is claimed by the plugin — routed
to URL-relative resolution when it is not itself absolute — so resolution
never falls back to the filesystem. -/
theorem network_tag_is_sticky (args : OnResolveArgs) :
    (∀ r, httpPluginResolve args = some (Except.ok r) →
      r.Namespace = gs "http-url") ∧
    (args.Namespace = gs "http-url" →
      httpPluginResolve args =
        some (if matchesHttpFilter args.Path then onResolveHttp args
              else onResolveHttpUrl args)) := by
  constructor
  · intro r hr
    by_cases hf : matchesHttpFilter args.Path = true
    · rw [httpPluginResolve_matches args hf] at hr
      simp only [onResolveHttp, Option.some.injEq, Except.ok.injEq] at hr
      rw [← hr]
    · by_cases hn : args.Namespace = gs "http-url"
      · rw [httpPluginResolve_relative args (by simpa using hf) hn] at hr
        simp only [Option.some.injEq] at hr
        exact onResolveHttpUrl_namespace args r hr
      · rw [httpPluginResolve_declines args (by simpa using hf) hn] at hr
        cases hr
  · intro hn
    by_cases hf : matchesHttpFilter args.Path = true
    · rw [httpPluginResolve_matches args hf, if_pos hf]
    · rw [httpPluginResolve_relative args (by simpa using hf) hn, if_neg hf]

/-- Witness for C3: a result produced by the absolute-specifier callback
carries the network namespace, and the bare relative path `./lib.js`
found inside an `http-url` module is routed to URL-relative resolution. -/
theorem network_tag_is_sticky_witness :
    ({ Path := gs "https://x.com/y.js", Namespace := gs "http-url" } :
        OnResolveResult).Namespace = gs "http-url" ∧
    httpPluginResolve
        { Path := gs "./lib.js",
          Importer := gs "https://example.com/a.js",
          Namespace := gs "http-url" } =
      some (if matchesHttpFilter (gs "./lib.js") then
              onResolveHttp
                { Path := gs "./lib.js",
                  Importer := gs "https://example.com/a.js",
                  Namespace := gs "http-url" }
            else
              onResolveHttpUrl
                { Path := gs "./lib.js",
                  Importer := gs "https://example.com/a.js",
                  Namespace := gs "http-url" }) :=
  ⟨(network_tag_is_sticky
      { Path := gs "https://x.com/y.js",
        Importer := gs "src/app.js",
        Namespace := gs "file" }).1
      { Path := gs "https://x.com/y.js", Namespace := gs "http-url" } rfl,
    (network_tag_is_sticky
      { Path := gs "./lib.js",
        Importer := gs "https://example.com/a.js",
        Namespace := gs "http-url" }).2 rfl⟩

/-- C4: the loader fails exactly when the transport fails — `http.Get`
returns an error or the body read ends in an error — and on transport
success it returns the full body decoded as text for every HTTP status
code, with no status-code validation. -/
theorem fetch_fails_iff_transport_fails (get : Except GoErr HttpResponse) :
    ((∃ e, (onLoadHttpUrl get).1 = Except.error e) ↔
      (∃ e, get = Except.error e) ∨
        (∃ res e, get = Except.ok res ∧ res.bodyReadErr = some e)) ∧
    (∀ res, get = Except.ok res → res.bodyReadErr = none →
      (onLoadHttpUrl get).1 = Except.ok res.bodyData) ∧
    (∀ res n,
      (onLoadHttpUrl (Except.ok { res with StatusCode := n })).1 =
        (onLoadHttpUrl (Except.ok res)).1) := by
  refine ⟨?_, ?_, ?_⟩
  · cases get with
    | error e => simp [onLoadHttpUrl]
    | ok res =>
      cases h : res.bodyReadErr with
      | none => simp [onLoadHttpUrl, h]
      | some e => simp [onLoadHttpUrl, h]
  · intro res hres hr
    cases hres
    simp [onLoadHttpUrl, hr]
  · intro res n
    cases h : res.bodyReadErr <;> simp [onLoadHttpUrl, h]

/-- Witness for C4: a 404 response whose body reads fine is returned as
module text, and a read failure surfaces as the loader's error. -/
theorem fetch_fails_iff_transport_fails_witness :
    (onLoadHttpUrl (Except.ok
        { StatusCode := 404, bodyData := gs "Not Found" })).1 =
      Except.ok (gs "Not Found") ∧
    (∃ e, (onLoadHttpUrl (Except.ok
        { StatusCode := 200, bodyData := gs "par",
          bodyReadErr := some (gs "unexpected EOF") })).1 =
      Except.error e) :=
  ⟨(fetch_fails_iff_transport_fails (Except.ok
        { StatusCode := 404, bodyData := gs "Not Found" })).2.1
      { StatusCode := 404, bodyData := gs "Not Found" } rfl rfl,
    (fetch_fails_iff_transport_fails (Except.ok
        { StatusCode := 200, bodyData := gs "par",
          bodyReadErr := some (gs "unexpected EOF") })).1.mpr
      (Or.inr ⟨{ StatusCode := 200, bodyData := gs "par",
                 bodyReadErr := some (gs "unexpected EOF") },
        gs "unexpected EOF", rfl, rfl⟩)⟩

/-- C5 counterexample: against the base
`https://example.com/a/b/constants.js`, the reference `util.js` resolves
to `https://example.com/a/b/util.js` — only the final segment
`constants.js` is dropped — not to the claimed
`https://example.com/a/util.js`. -/
theorem bare_relative_drops_only_last_segment_counterexample :
    httpPluginResolve
        { Path := gs "util.js",
          Importer := gs "https://example.com/a/b/constants.js",
          Namespace := gs "http-url" } =
      some (Except.ok
        { Path := gs "https://example.com/a/b/util.js",
          Namespace := gs "http-url" }) ∧
    gs "https://example.com/a/b/util.js" ≠ gs "https://example.com/a/util.js" :=
  ⟨rfl, by decide⟩

/-- C5 (amended): for base `https://example.com/a/b/constants.js` and the
reference `util.js` (no leading `./`), relative resolution merges the
reference against the base's directory, dropping the final segment
`constants.js`, and yields `https://example.com/a/b/util.js`. -/
theorem bare_relative_drops_only_last_segment :
    httpPluginResolve
        { Path := gs "util.js",
          Importer := gs "https://example.com/a/b/constants.js",
          Namespace := gs "http-url" } =
      some (Except.ok
        { Path := gs "https://example.com/a/b/util.js",
          Namespace := gs "http-url" }) := rfl

/-- C6: an already-absolute network specifier resolves to itself
unchanged, a second time, whatever the importer context — in particular
when it serves as its own importer inside the `http-url` namespace. -/
theorem absolute_resolution_idempotent (s base ns : GoStr)
    (h : matchesHttpFilter s = true) :
    httpPluginResolve { Path := s, Importer := base, Namespace := ns } =
      some (Except.ok { Path := s, Namespace := gs "http-url" }) ∧
    httpPluginResolve { Path := s, Importer := s, Namespace := gs "http-url" } =
      some (Except.ok { Path := s, Namespace := gs "http-url" }) :=
  ⟨httpPluginResolve_matches { Path := s, Importer := base, Namespace := ns } h,
    httpPluginResolve_matches
      { Path := s, Importer := s, Namespace := gs "http-url" } h⟩

/-- Witness for C6 at `https://example.com/a/b/util.js` resolved against
itself. -/
theorem absolute_resolution_idempotent_witness :
    matchesHttpFilter (gs "https://example.com/a/b/util.js") = true ∧
    httpPluginResolve
        { Path := gs "https://example.com/a/b/util.js",
          Importer := gs "https://example.com/a/b/util.js",
          Namespace := gs "http-url" } =
      some (Except.ok
        { Path := gs "https://example.com/a/b/util.js",
          Namespace := gs "http-url" }) :=
  ⟨by decide,
    (absolute_resolution_idempotent (gs "https://example.com/a/b/util.js")
      (gs "https://example.com/a/b/util.js") (gs "http-url") (by decide)).2⟩

/-- C7: URL-relative resolution fails exactly when the importer specifier
or the imported specifier fails to parse as a URL reference; when both
parse, no error is produced. -/
theorem relative_resolution_error_iff_malformed (importer path ns : GoStr) :
    (∃ e, onResolveHttpUrl
        { Path := path, Importer := importer, Namespace := ns } =
      Except.error e) ↔
      (∃ e, Parse importer = Except.error e) ∨
        (∃ e, Parse path = Except.error e) := by
  unfold onResolveHttpUrl
  cases hi : Parse importer <;> cases hp : Parse path <;> simp

/-- Witness for C7: the specifier `:x` has no parsable scheme, so
resolving it inside a network module errors; `./util.js` resolves without
error. -/
theorem relative_resolution_error_iff_malformed_witness :
    (∃ e, onResolveHttpUrl
        { Path := gs ":x",
          Importer := gs "https://example.com/a/b/constants.js",
          Namespace := gs "http-url" } = Except.error e) ∧
    ¬ (∃ e, onResolveHttpUrl
        { Path := gs "./util.js",
          Importer := gs "https://example.com/a/b/constants.js",
          Namespace := gs "http-url" } = Except.error e) :=
  ⟨(relative_resolution_error_iff_malformed
      (gs "https://example.com/a/b/constants.js") (gs ":x")
      (gs "http-url")).mpr
      (Or.inr ⟨gs "missing protocol scheme", by rfl⟩),
    fun he =>
      match (relative_resolution_error_iff_malformed
          (gs "https://example.com/a/b/constants.js") (gs "./util.js")
          (gs "http-url")).mp he with
      | Or.inl ⟨e, h⟩ => by cases h
      | Or.inr ⟨e, h⟩ => by cases h⟩

/-- C8: a specifier that does not match `^https?://`, imported from a
module outside the `http-url` namespace, is not claimed by the plugin: no
resolution result is produced and the host engine's own filesystem
resolution proceeds. -/
theorem non_network_specifier_declined (args : OnResolveArgs)
    (h1 : matchesHttpFilter args.Path = false)
    (h2 : args.Namespace ≠ gs "http-url") :
    httpPluginResolve args = none :=
  httpPluginResolve_declines args h1 h2

/-- Witness for C8 at the bare path `./foo.js` imported from a filesystem
module. -/
theorem non_network_specifier_declined_witness :
    matchesHttpFilter (gs "./foo.js") = false ∧
    gs "file" ≠ gs "http-url" ∧
    httpPluginResolve
        { Path := gs "./foo.js",
          Importer := gs "src/app.js",
          Namespace := gs "file" } = none :=
  ⟨by decide, by decide,
    non_network_specifier_declined
      { Path := gs "./foo.js",
        Importer := gs "src/app.js",
        Namespace := gs "file" } (by decide) (by decide)⟩

/-- C9 counterexample: when reading the response body fails, the loader
returns with the body closed but not fully drained — the stream was
abandoned at the read error, refuting the claim that every exit path
fully drains the stream. -/
theorem body_not_drained_on_read_error_counterexample :
    (onLoadHttpUrl (Except.ok
        { StatusCode := 200, bodyData := gs "partial",
          bodyReadErr := some (gs "unexpected EOF") })).2 =
      some { drained := false, closed := true } := rfl

/-- C9 (amended): on every exit path after a response is obtained the
response body is closed — its connection resource released — before the
loader returns, but the stream is fully drained only when reading the
body succeeds. -/
theorem body_closed_on_every_exit (res : HttpResponse) :
    (onLoadHttpUrl (Except.ok res)).2 =
      some { drained := res.bodyReadErr.isNone, closed := true } := by
  cases h : res.bodyReadErr <;> simp [onLoadHttpUrl, h]

/-- C10: when a POST request's body cannot be read (outside the `/health`
fixture path), the handler silently proceeds with the empty string as the
entry source and the response reflects the outcome of building the empty
input; the read error is never reported. -/
theorem post_body_read_error_builds_empty (r : Request)
    (build : GoStr → BuildResult) (e : GoErr)
    (hp : r.UrlPath ≠ gs "/health") (hm : r.Method = gs "POST")
    (hb : r.bodyRead = Except.error e) :
    handleSource r = [] ∧ handle build r = renderBuild (build []) := by
  have hp' : (r.UrlPath == gs "/health") = false := by
    rw [beq_eq_false_iff_ne]; exact hp
  have hsrc : handleSource r = [] := by
    simp [handleSource, hp', hm, hb]
  exact ⟨hsrc, by rw [handle, hsrc]⟩

/-- Witness for C10: a POST to `/` whose body read fails yields the same
response as building the empty source. -/
theorem post_body_read_error_builds_empty_witness :
    handleSource
        { Method := gs "POST", UrlPath := gs "/", querySource := gs "",
          bodyRead := Except.error (gs "read failed") } = [] ∧
    handle (fun s => { Errors := [], OutputFiles := [s] })
        { Method := gs "POST", UrlPath := gs "/", querySource := gs "",
          bodyRead := Except.error (gs "read failed") } =
      renderBuild ((fun s => ({ Errors := [], OutputFiles := [s] } :
        BuildResult)) []) :=
  post_body_read_error_builds_empty
    { Method := gs "POST", UrlPath := gs "/", querySource := gs "",
      bodyRead := Except.error (gs "read failed") }
    (fun s => { Errors := [], OutputFiles := [s] })
    (gs "read failed") (by decide) rfl rfl

end Conifer
